import Mathlib

/-!
Verification of the Trino WebAssembly Python UDF host (`src/pyhost.c`,
`src/pyhost.h`).

The development shallowly embeds the C sources:

* byte streams are `List Nat` (each element a byte value `< 256`);
* the borrowed cursors (`const u8**`) are modelled by functions that take a
  remaining suffix of the stream and return the suffix left after reading;
* machine integers are `Int` with explicit two's-complement wrapping where
  the C code can overflow (`wrap32`), and C truncating division is
  `Int.tdiv` / `Int.tmod`;
* Python objects are the inductive `PyValue`; CPython constructor
  validation (e.g. `PyTime_FromTime` range checks) appears as `Option`
  returning smart constructors;
* a fatal error (`FATAL`, `checked`) is `Option.none` on the decoding side
  and `EncResult.fatal` on the encoding side; a recoverable engine error is
  the one `trinoReturnError` call the C code makes, recorded as `ErrCall`;
* recursion in C is unbounded; the embedding adds an explicit fuel
  parameter (first argument, structurally decreasing), so every definition
  computes by kernel reduction.  All theorems hold for every sufficiently
  large fuel.
-/

namespace Pyhost

/-! ## Byte-stream primitives (readI8/readI16/readI32/readI64 of pyhost.c) -/

/-- Little-endian value of a byte list (first byte least significant). -/
def leNat : List Nat → Nat
  | [] => 0
  | b :: bs => b + 256 * leNat bs

/-- The `w` little-endian bytes of `n` (truncating above `256^w`). -/
def natLE : Nat → Nat → List Nat
  | 0, _ => []
  | w+1, n => n % 256 :: natLE w (n / 256)

/-- Reinterpret an unsigned value below `2*half` as a signed integer, as the
C casts `*(iN*)p` do with `half = 2^(N-1)`. -/
def toSigned (half : Nat) (n : Nat) : Int :=
  if n < half then (n : Int) else (n : Int) - 2 * half

/-- The `w` little-endian bytes of a signed integer (two's complement). -/
def intLE (w : Nat) (v : Int) : List Nat :=
  natLE w (v.emod ((2 : Int) ^ (8 * w))).toNat

/-- Read `n` raw bytes from the stream; `none` models an out-of-bounds read
of the borrowed buffer, which cannot happen on engine-produced payloads. -/
def readBytes : Nat → List Nat → Option (List Nat × List Nat)
  | 0, s => some ([], s)
  | _+1, [] => none
  | n+1, b :: s =>
    match readBytes n s with
    | some (bs, r) => some (b :: bs, r)
    | none => none

/-- Read a `w`-byte little-endian signed integer (`readI8` … `readI64`). -/
def readIntLE (w : Nat) (s : List Nat) : Option (Int × List Nat) :=
  match readBytes w s with
  | some (bs, r) => some (toSigned (2 ^ (8 * w - 1)) (leNat bs), r)
  | none => none

/-- Run an optional state transformer `n` times, stopping at the first
failure; this is the shape of every `for (i = 0; i < count; i++)` loop in
the C code (a negative `i32 count` runs the loop zero times, matching
`Int.toNat`). -/
def iterN {σ : Type} : Nat → (σ → Option σ) → Option σ → Option σ
  | 0, _, s => s
  | n+1, f, s => iterN n f (s >>= f)

/-! ## The type-descriptor walker (`skipType`) -/

/-- Skip one complete type subtree of the descriptor, `skipType` of
pyhost.c: ROW reads a 32-bit field count and recurses that many times,
ARRAY recurses once, MAP twice, the scalar codes 3..22 recurse zero times,
and any other code is fatal (`none`).  The data stream is not an argument:
the walker cannot touch it. -/
def skipType : Nat → List Nat → Option (List Nat)
  | 0, _ => none
  | fuel+1, t =>
    match readIntLE 4 t with
    | none => none
    | some (code, t) =>
      if code = 0 then
        match readIntLE 4 t with
        | none => none
        | some (count, t) => iterN count.toNat (fun s => skipType fuel s) (some t)
      else if code = 1 then
        skipType fuel t
      else if code = 2 then
        match skipType fuel t with
        | some t2 => skipType fuel t2
        | none => none
      else if 3 ≤ code ∧ code ≤ 22 then some t
      else none

/-! ## Well-formed descriptors

`DescBytes bs` says the byte list `bs` is one complete well-formed type
descriptor subtree in the wire grammar of §3 of the specification: a
32-bit little-endian type code, followed for ROW by a 32-bit field count
and the field subtrees, for ARRAY by the element subtree, for MAP by the
key and value subtrees. -/
inductive DescBytes : List Nat → Prop where
  | scalar (c : Nat) (h3 : 3 ≤ c) (h22 : c ≤ 22) : DescBytes (natLE 4 c)
  | row (fs : List (List Nat)) (hlen : fs.length < 2 ^ 31)
      (hf : ∀ b ∈ fs, DescBytes b) :
      DescBytes (natLE 4 0 ++ natLE 4 fs.length ++ fs.flatten)
  | array (e : List Nat) (he : DescBytes e) : DescBytes (natLE 4 1 ++ e)
  | map (k v : List Nat) (hk : DescBytes k) (hv : DescBytes v) :
      DescBytes (natLE 4 2 ++ k ++ v)

/-! ## Python runtime objects

`PyValue` models the CPython objects the host constructs and consumes:
`Py_None`, bool, arbitrary-precision int, float (stored as its IEEE-754
binary64 bit pattern), str (stored as its UTF-8 bytes), bytes, Decimal
(stored as the signed coefficient and decimal exponent of its literal),
tuple, list, dict (as an insertion-ordered association list), and the
datetime / uuid / ipaddress objects.  A timezone is its UTC offset in
minutes; timedelta is kept normalised the way CPython stores it
(`0 ≤ secs < 86400`, `0 ≤ usecs < 1000000`). -/
inductive PyValue where
  | none : PyValue
  | bool (b : Bool) : PyValue
  | int (v : Int) : PyValue
  | float (bits : Nat) : PyValue
  | str (utf8 : List Nat) : PyValue
  | bytes (bs : List Nat) : PyValue
  | decimal (coeff : Int) (exp : Int) : PyValue
  | tuple (fields : List PyValue) : PyValue
  | list (elems : List PyValue) : PyValue
  | dict (entries : List (PyValue × PyValue)) : PyValue
  | date (y m d : Int) : PyValue
  | time (h mi s us : Int) (tz : Option Int) : PyValue
  | datetime (y mo d h mi s us : Int) (tz : Option Int) : PyValue
  | timedelta (days secs usecs : Int) : PyValue
  | uuid (bs : List Nat) : PyValue
  | ipv4 (bs : List Nat) : PyValue
  | ipv6 (bs : List Nat) : PyValue

/-- The `input != Py_None` test of `buildResult`. -/
def pyIsNone : PyValue → Bool
  | .none => true
  | _ => false

/-- Structural equality with fuel, modelling Python `==` on the values a
single MAP key type produces (`PyDict_SetItem` key comparison).  Fuel-based
so it computes by kernel reduction; any fuel at least the value depth is
exact. -/
def pyEqF : Nat → PyValue → PyValue → Bool
  | 0, _, _ => false
  | fuel+1, a, b =>
    match a, b with
    | .none, .none => true
    | .bool x, .bool y => x == y
    | .int x, .int y => x == y
    | .float x, .float y => x == y
    | .str x, .str y => x == y
    | .bytes x, .bytes y => x == y
    | .decimal c1 e1, .decimal c2 e2 => c1 == c2 && e1 == e2
    | .tuple xs, .tuple ys =>
      xs.length == ys.length && (xs.zip ys).all fun p => pyEqF fuel p.1 p.2
    | .list xs, .list ys =>
      xs.length == ys.length && (xs.zip ys).all fun p => pyEqF fuel p.1 p.2
    | .dict xs, .dict ys =>
      xs.length == ys.length &&
        (xs.zip ys).all fun p =>
          pyEqF fuel p.1.1 p.2.1 && pyEqF fuel p.1.2 p.2.2
    | .date y1 m1 d1, .date y2 m2 d2 => y1 == y2 && m1 == m2 && d1 == d2
    | .time h1 m1 s1 u1 z1, .time h2 m2 s2 u2 z2 =>
      h1 == h2 && m1 == m2 && s1 == s2 && u1 == u2 && z1 == z2
    | .datetime y1 o1 d1 h1 m1 s1 u1 z1, .datetime y2 o2 d2 h2 m2 s2 u2 z2 =>
      y1 == y2 && o1 == o2 && d1 == d2 && h1 == h2 && m1 == m2 &&
        s1 == s2 && u1 == u2 && z1 == z2
    | .timedelta d1 s1 u1, .timedelta d2 s2 u2 => d1 == d2 && s1 == s2 && u1 == u2
    | .uuid x, .uuid y => x == y
    | .ipv4 x, .ipv4 y => x == y
    | .ipv6 x, .ipv6 y => x == y
    | _, _ => false

/-- CPython `PyDict_SetItem`: replacing an existing key keeps the original
key object and position; a new key is appended. -/
def dictSet (fuel : Nat) : List (PyValue × PyValue) → PyValue → PyValue →
    List (PyValue × PyValue)
  | [], k, v => [(k, v)]
  | (k', v') :: rest, k, v =>
    if pyEqF fuel k' k then (k', v) :: rest else (k', v') :: dictSet fuel rest k v

/-- CPython `PyObject_IsTrue` on the modelled objects (all of them have a
well-defined truth value, so the C error path `-1` cannot occur here). -/
def pyTruth : PyValue → Bool
  | .none => false
  | .bool b => b
  | .int v => v != 0
  | .float bits => bits != 0 && bits != 2 ^ 63
  | .str bs => bs.length != 0
  | .bytes bs => bs.length != 0
  | .decimal c _ => c != 0
  | .tuple fs => fs.length != 0
  | .list vs => vs.length != 0
  | .dict es => es.length != 0
  | .date _ _ _ => true
  | .time _ _ _ _ _ => true
  | .datetime _ _ _ _ _ _ _ _ => true
  | .timedelta d s us => d != 0 || s != 0 || us != 0
  | .uuid _ => true
  | .ipv4 _ => true
  | .ipv6 _ => true

/-- CPython `PyLong_AsLongLongAndOverflow` / `PyLong_AsLongAndOverflow`
at the object level: ints convert, bools convert as 0/1, anything else
raises a TypeError (`Option.none`); the width check is done by the caller. -/
def pyToInt : PyValue → Option Int
  | .int v => some v
  | .bool b => some (if b then 1 else 0)
  | _ => none

/-! ## Proleptic-Gregorian calendar arithmetic (`gmtime` / `timegm`)

The wasm libc `gmtime` and `timegm` compute proleptic Gregorian civil
time in UTC; these are the standard `civil_from_days` / `days_from_civil`
algorithms the specification refers to. -/

/-- Civil date `(y, m, d)` of the day `z` days after 1970-01-01. -/
def civilFromDays (z0 : Int) : Int × Int × Int :=
  let z := z0 + 719468
  let era := z.fdiv 146097
  let doe := z - era * 146097
  let yoe := (doe - doe.ediv 1460 + doe.ediv 36524 - doe.ediv 146096).ediv 365
  let y := yoe + era * 400
  let doy := doe - (365 * yoe + yoe.ediv 4 - yoe.ediv 100)
  let mp := (5 * doy + 2).ediv 153
  let d := doy - (153 * mp + 2).ediv 5 + 1
  let m := mp + (if mp < 10 then 3 else -9)
  (y + (if m ≤ 2 then 1 else 0), m, d)

/-- Days from 1970-01-01 to the civil date `(y, m, d)`. -/
def daysFromCivil (y0 m d : Int) : Int :=
  let y := y0 - (if m ≤ 2 then 1 else 0)
  let era := y.fdiv 400
  let yoe := y - era * 400
  let doy := (153 * (m + (if 2 < m then -3 else 9)) + 2).ediv 5 + d - 1
  let doe := yoe * 365 + yoe.ediv 4 - yoe.ediv 100 + doy
  era * 146097 + doe - 719468

/-- The six civil fields `gmtime` produces for a seconds-since-epoch value
(year, month, day, hour, minute, second). -/
def gmtimeM (secs : Int) : Int × Int × Int × Int × Int × Int :=
  let days := secs.fdiv 86400
  let sod := secs.emod 86400
  let c := civilFromDays days
  (c.1, c.2.1, c.2.2, sod.ediv 3600, (sod.ediv 60).emod 60, sod.emod 60)

/-- `timegm` of a civil datetime (wasm libc, proleptic Gregorian UTC). -/
def timegmM (y mo d h mi s : Int) : Int :=
  daysFromCivil y mo d * 86400 + h * 3600 + mi * 60 + s

/-- Leap year in the proleptic Gregorian calendar. -/
def isLeap (y : Int) : Bool :=
  (y.emod 4 == 0 && y.emod 100 != 0) || y.emod 400 == 0

/-- Number of days in a month. -/
def daysInMonth (y m : Int) : Int :=
  if m = 2 then (if isLeap y then 29 else 28)
  else if m = 4 ∨ m = 6 ∨ m = 9 ∨ m = 11 then 30 else 31

/-- The range CPython `date` / `datetime` constructors accept. -/
def validDate (y m d : Int) : Bool :=
  1 ≤ y && y ≤ 9999 && 1 ≤ m && m ≤ 12 && 1 ≤ d && d ≤ daysInMonth y m

/-- The range CPython `time` / `datetime` constructors accept. -/
def validTime (h mi s us : Int) : Bool :=
  0 ≤ h && h < 24 && 0 ≤ mi && mi < 60 && 0 ≤ s && s < 60 &&
    0 ≤ us && us < 1000000

/-- `PyDate_FromDate`: fails (fatal via `checked`) outside year 1..9999. -/
def mkDate (y m d : Int) : Option PyValue :=
  if validDate y m d then some (.date y m d) else none

/-- `PyTime_FromTime` / `Time_FromTime`: validates the field ranges. -/
def mkTime (h mi s us : Int) (tz : Option Int) : Option PyValue :=
  if validTime h mi s us then some (.time h mi s us tz) else none

/-- `PyDateTime_FromDateAndTime` / `DateTime_FromDateAndTime`. -/
def mkDateTime (y mo d h mi s us : Int) (tz : Option Int) : Option PyValue :=
  if validDate y mo d && validTime h mi s us then
    some (.datetime y mo d h mi s us tz)
  else none

/-- `PyDelta_FromDSU` with CPython's normalisation of the three fields and
its `|days| ≤ 999999999` bound. -/
def mkDelta (d s us : Int) : Option PyValue :=
  let total := (d * 86400 + s) * 1000000 + us
  let days := total.ediv 86400000000
  let rem := total.emod 86400000000
  if days < -999999999 ∨ 999999999 < days then none
  else some (.timedelta days (rem.ediv 1000000) (rem.emod 1000000))

/-- `PyTimeZone_FromOffset` on a whole-minute offset: CPython accepts only
offsets strictly between -24h and +24h. -/
def mkTz (m : Int) : Option Int :=
  if -1440 < m ∧ m < 1440 then some m else none

/-- The offset-minutes computation of `buildResult` on a `utcoffset()`
timedelta whose total is `m` minutes:
`DELTA_GET_DAYS * 24 * 60 + DELTA_GET_SECONDS / 60` on the normalised
fields (the divisions are on non-negative operands, so C truncation is
floor division). -/
def offsetMinutesOfTz (m : Int) : Int :=
  (m * 60) / 86400 * (24 * 60) + ((m * 60) % 86400) / 60

/-- Two's-complement wrap of an `i64`-or-wider value into `i32`, the
behaviour of the 32-bit wasm target where the C code narrows or overflows
`int` arithmetic. -/
def wrap32 (v : Int) : Int :=
  toSigned (2 ^ 31) (v.emod (2 ^ 32)).toNat

/-! ## IEEE-754 bit-pattern conversions

The wire format stores REAL as binary32 and DOUBLE as binary64.  Floats
are modelled by their binary64 bit pattern, so the C conversions
`(f64)f32value` and `(f32)f64value` become pure bit-pattern functions.
`natLog2F` is a kernel-reducing `Nat.log2`. -/

def natLog2F : Nat → Nat → Nat
  | 0, _ => 0
  | f+1, n => if n ≤ 1 then 0 else natLog2F f (n / 2) + 1

/-- Floor of the base-2 logarithm (position of the most significant bit). -/
def natLog2 (n : Nat) : Nat := natLog2F 64 n

/-- Exact widening of a binary32 bit pattern to binary64. -/
def f32ToF64 (b : Nat) : Nat :=
  let sign := b / 2 ^ 31 % 2
  let exp := b / 2 ^ 23 % 2 ^ 8
  let frac := b % 2 ^ 23
  if exp = 255 then sign * 2 ^ 63 + 2047 * 2 ^ 52 + frac * 2 ^ 29
  else if exp = 0 then
    if frac = 0 then sign * 2 ^ 63
    else
      let m := natLog2 frac
      sign * 2 ^ 63 + (m + 874) * 2 ^ 52 + (frac - 2 ^ m) * 2 ^ (52 - m)
  else sign * 2 ^ 63 + (exp + 896) * 2 ^ 52 + frac * 2 ^ 29

/-- Round `num / den` to the nearest integer, ties to even. -/
def roundNearestEven (num den : Nat) : Nat :=
  let q := num / den
  let r := num % den
  if den < 2 * r ∨ (2 * r = den ∧ q % 2 = 1) then q + 1 else q

/-- Encode the real number `(-1)^sign * sig * 2^e2` as an IEEE-754 binary
float with `fracBits` fraction bits and `expBits` exponent bits, rounding
to nearest, ties to even, overflowing to infinity. -/
def encFloatBits (fracBits expBits sign sig : Nat) (e2 : Int) : Nat :=
  let bias : Int := 2 ^ (expBits - 1) - 1
  let emin : Int := 1 - bias
  let signB := sign * 2 ^ (fracBits + expBits)
  if sig = 0 then signB
  else
    let ev0 : Int := (natLog2 sig : Int) + e2
    let ev : Int := max ev0 emin
    let shift : Int := e2 - (ev - fracBits)
    let q : Nat :=
      if 0 ≤ shift then sig * 2 ^ shift.toNat
      else roundNearestEven sig (2 ^ (-shift).toNat)
    let qe : Nat × Int := if 2 ^ (fracBits + 1) ≤ q then (q / 2, ev + 1) else (q, ev)
    if bias < qe.2 then signB + (2 ^ expBits - 1) * 2 ^ fracBits
    else if qe.1 < 2 ^ fracBits then signB + qe.1
    else signB + (qe.2 + bias).toNat * 2 ^ fracBits + (qe.1 - 2 ^ fracBits)

/-- The C conversion `(f32)value` of a binary64 bit pattern (round to
nearest, ties to even; NaN payloads keep their top fraction bits). -/
def f64ToF32 (b : Nat) : Nat :=
  let sign : Nat := b / 2 ^ 63 % 2
  let exp : Nat := b / 2 ^ 52 % 2 ^ 11
  let frac : Nat := b % 2 ^ 52
  if exp = 2047 then
    if frac = 0 then sign * 2 ^ 31 + 255 * 2 ^ 23
    else sign * 2 ^ 31 + 255 * 2 ^ 23 + max (frac / 2 ^ 29) 1
  else
    let sig := if exp = 0 then frac else 2 ^ 52 + frac
    let e2 : Int := (if exp = 0 then 1 else (exp : Int)) - 1075
    encFloatBits 23 8 sign sig e2

/-- Conversion of an arbitrary-precision integer to binary64 (the rounding
CPython performs inside `PyFloat_AsDouble` on an int). -/
def intToF64 (v : Int) : Nat :=
  encFloatBits 52 11 (if v < 0 then 1 else 0) v.natAbs 0

/-- `PyFloat_AsDouble` on the modelled objects: floats pass through, bools
and ints convert; other objects raise a TypeError (`Option.none`).
(Objects with a `__float__` slot other than these — e.g. Decimal — are
outside the model.) -/
def pyFloatAsDouble : PyValue → Option Nat
  | .float bits => some bits
  | .bool b => some (if b then 4607182418800017408 else 0)
  | .int v => some (intToF64 v)
  | _ => none

/-! ## UTF-8 and decimal text -/

/-- Strict UTF-8 validity, as `PyUnicode_FromStringAndSize` checks it
(rejecting overlong forms, surrogates and values above U+10FFFF). -/
def validUtf8 : List Nat → Bool
  | [] => true
  | b :: rest =>
    if b < 128 then validUtf8 rest
    else if 194 ≤ b ∧ b ≤ 223 then
      match rest with
      | c1 :: r => 128 ≤ c1 && c1 ≤ 191 && validUtf8 r
      | _ => false
    else if b = 224 then
      match rest with
      | c1 :: c2 :: r => 160 ≤ c1 && c1 ≤ 191 && 128 ≤ c2 && c2 ≤ 191 && validUtf8 r
      | _ => false
    else if (225 ≤ b ∧ b ≤ 236) ∨ b = 238 ∨ b = 239 then
      match rest with
      | c1 :: c2 :: r => 128 ≤ c1 && c1 ≤ 191 && 128 ≤ c2 && c2 ≤ 191 && validUtf8 r
      | _ => false
    else if b = 237 then
      match rest with
      | c1 :: c2 :: r => 128 ≤ c1 && c1 ≤ 159 && 128 ≤ c2 && c2 ≤ 191 && validUtf8 r
      | _ => false
    else if b = 240 then
      match rest with
      | c1 :: c2 :: c3 :: r =>
        144 ≤ c1 && c1 ≤ 191 && 128 ≤ c2 && c2 ≤ 191 && 128 ≤ c3 && c3 ≤ 191 &&
          validUtf8 r
      | _ => false
    else if 241 ≤ b ∧ b ≤ 243 then
      match rest with
      | c1 :: c2 :: c3 :: r =>
        128 ≤ c1 && c1 ≤ 191 && 128 ≤ c2 && c2 ≤ 191 && 128 ≤ c3 && c3 ≤ 191 &&
          validUtf8 r
      | _ => false
    else if b = 244 then
      match rest with
      | c1 :: c2 :: c3 :: r =>
        128 ≤ c1 && c1 ≤ 143 && 128 ≤ c2 && c2 ≤ 191 && 128 ≤ c3 && c3 ≤ 191 &&
          validUtf8 r
      | _ => false
    else false

/-- Is the byte an ASCII digit? -/
def isDigit (b : Nat) : Bool := 48 ≤ b && b ≤ 57

/-- Numeric value of a digit string (most significant first). -/
def digitsToNat (ds : List Nat) : Nat :=
  ds.foldl (fun a b => a * 10 + (b - 48)) 0

/-- Modelled from the spec: the Python `Decimal` constructor the decoder
calls through `decimalClass` lives in the runtime, not in `src/`.  On the
plain literal grammar `[sign] digits [. digits]` it yields the signed
coefficient and the (non-positive) decimal exponent; any other input
raises, which the decoder turns into a fatal error.  (The full CPython
grammar also has exponents, specials and underscores; the engine's wire
form never uses them.) -/
def parseDec (bs : List Nat) : Option (Int × Int) :=
  let sr : Int × List Nat :=
    match bs with
    | 45 :: r => (-1, r)
    | 43 :: r => (1, r)
    | r => (1, r)
  let ip := sr.2.takeWhile isDigit
  let rest2 := sr.2.dropWhile isDigit
  match rest2 with
  | [] => if ip.isEmpty then Option.none else some (sr.1 * digitsToNat ip, 0)
  | 46 :: frac =>
    let fp := frac.takeWhile isDigit
    let rest3 := frac.dropWhile isDigit
    if rest3.isEmpty && !(ip.isEmpty && fp.isEmpty) then
      some (sr.1 * digitsToNat (ip ++ fp), -(fp.length : Int))
    else Option.none
  | _ => Option.none

/-- Decimal digits of a natural number, most significant first, as ASCII
bytes. -/
def natDigits (n : Nat) : List Nat :=
  (Nat.toDigits 10 n).map Char.toNat

/-- Modelled from the spec: the companion library helper
`_decimal_to_string` (module `trino`, not in `src/`) renders a Decimal in
the canonical non-scientific textual form the engine expects. -/
def decimalToString (c e : Int) : List Nat :=
  let sign : List Nat := if c < 0 then [45] else []
  let ds := natDigits c.natAbs
  if 0 ≤ e then sign ++ ds ++ List.replicate e.toNat 48
  else
    let k := (-e).toNat
    let ds := if ds.length ≤ k then List.replicate (k + 1 - ds.length) 48 ++ ds else ds
    sign ++ ds.take (ds.length - k) ++ [46] ++ ds.drop (ds.length - k)

/-! ## The value decoder (`doBuildArgs`)

`doBuildArgs fuel type data` decodes one value: it reads the 1-byte
presence flag (any nonzero byte is "present"; on absence it skips one
descriptor subtree and yields `Py_None`), then reads the 32-bit type code
and switches on it exactly as `doBuildArgs` of pyhost.c does.  The result
is the decoded object together with the remaining descriptor and data
suffixes; `Option.none` is a fatal error (unknown code, out-of-bounds
read, or a failing CPython constructor under `checked`). -/
def doBuildArgs : Nat → List Nat → List Nat → Option (PyValue × List Nat × List Nat)
  | 0, _, _ => Option.none
  | fuel+1, type, data =>
    match data with
    | [] => Option.none
    | p :: data =>
      if toSigned (2 ^ 7) p = 0 then
        match skipType fuel type with
        | some type => some (PyValue.none, type, data)
        | Option.none => Option.none
      else
        match readIntLE 4 type with
        | Option.none => Option.none
        | some (code, type) =>
          if code = 0 then
            -- ROW: 32-bit field count from the descriptor, then the fields
            match readIntLE 4 type with
            | Option.none => Option.none
            | some (count, type) =>
              if count < 0 then Option.none
              else
                let step := fun (s : List PyValue × List Nat × List Nat) =>
                  match doBuildArgs fuel s.2.1 s.2.2 with
                  | some (v, t, d) => some (s.1 ++ [v], t, d)
                  | Option.none => Option.none
                match iterN count.toNat step (some ([], type, data)) with
                | some (vs, type, data) => some (.tuple vs, type, data)
                | Option.none => Option.none
          else if code = 1 then
            -- ARRAY: save the element descriptor, 32-bit count from the data
            let saved := type
            match readIntLE 4 data with
            | Option.none => Option.none
            | some (count, data) =>
              if count < 0 then Option.none
              else
                let step := fun (s : List PyValue × List Nat × List Nat) =>
                  match doBuildArgs fuel saved s.2.2 with
                  | some (v, t, d) => some (s.1 ++ [v], t, d)
                  | Option.none => Option.none
                match iterN count.toNat step (some ([], saved, data)) with
                | some (vs, type, data) =>
                  if count = 0 then
                    match skipType fuel saved with
                    | some type => some (.list vs, type, data)
                    | Option.none => Option.none
                  else some (.list vs, type, data)
                | Option.none => Option.none
          else if code = 2 then
            -- MAP: like ARRAY but pairs; note there is no count-0 skip here
            let saved := type
            match readIntLE 4 data with
            | Option.none => Option.none
            | some (count, data) =>
              let step := fun (s : List (PyValue × PyValue) × List Nat × List Nat) =>
                match doBuildArgs fuel saved s.2.2 with
                | some (k, t, d) =>
                  match doBuildArgs fuel t d with
                  | some (v, t2, d2) => some (dictSet fuel s.1 k v, t2, d2)
                  | Option.none => Option.none
                | Option.none => Option.none
              match iterN count.toNat step (some ([], saved, data)) with
              | some (es, type, data) => some (.dict es, type, data)
              | Option.none => Option.none
          else if code = 3 then
            match data with
            | b :: data => some (.bool (toSigned (2 ^ 7) b != 0), type, data)
            | [] => Option.none
          else if code = 4 then
            match readIntLE 8 data with
            | some (v, data) => some (.int v, type, data)
            | Option.none => Option.none
          else if code = 5 then
            match readIntLE 4 data with
            | some (v, data) => some (.int v, type, data)
            | Option.none => Option.none
          else if code = 6 then
            match readIntLE 2 data with
            | some (v, data) => some (.int v, type, data)
            | Option.none => Option.none
          else if code = 7 then
            match readIntLE 1 data with
            | some (v, data) => some (.int v, type, data)
            | Option.none => Option.none
          else if code = 8 then
            match readBytes 8 data with
            | some (bs, data) => some (.float (leNat bs), type, data)
            | Option.none => Option.none
          else if code = 9 then
            match readBytes 4 data with
            | some (bs, data) => some (.float (f32ToF64 (leNat bs)), type, data)
            | Option.none => Option.none
          else if code = 10 then
            -- DECIMAL: 32-bit size, UTF-8 text, Decimal(text)
            match readIntLE 4 data with
            | Option.none => Option.none
            | some (size, data) =>
              if size < 0 then Option.none
              else
                match readBytes size.toNat data with
                | Option.none => Option.none
                | some (bs, data) =>
                  if validUtf8 bs then
                    match parseDec bs with
                    | some (c, e) => some (.decimal c e, type, data)
                    | Option.none => Option.none
                  else Option.none
          else if code = 11 ∨ code = 20 then
            -- VARCHAR / JSON
            match readIntLE 4 data with
            | Option.none => Option.none
            | some (size, data) =>
              if size < 0 then Option.none
              else
                match readBytes size.toNat data with
                | some (bs, data) =>
                  if validUtf8 bs then some (.str bs, type, data) else Option.none
                | Option.none => Option.none
          else if code = 12 then
            match readIntLE 4 data with
            | Option.none => Option.none
            | some (size, data) =>
              if size < 0 then Option.none
              else
                match readBytes size.toNat data with
                | some (bs, data) => some (.bytes bs, type, data)
                | Option.none => Option.none
          else if code = 13 then
            -- DATE: `days * (24*60*60)` overflows i32 on the wasm target
            match readIntLE 4 data with
            | Option.none => Option.none
            | some (days, data) =>
              let secs := wrap32 (days * 86400)
              let c := gmtimeM secs
              match mkDate c.1 c.2.1 c.2.2.1 with
              | some v => some (v, type, data)
              | Option.none => Option.none
          else if code = 14 then
            match readIntLE 8 data with
            | Option.none => Option.none
            | some (t, data) =>
              match mkTime (t.tdiv 3600000000) ((t.tdiv 60000000).tmod 60)
                  ((t.tdiv 1000000).tmod 60) (t.tmod 1000000) Option.none with
              | some v => some (v, type, data)
              | Option.none => Option.none
          else if code = 15 then
            match readIntLE 8 data with
            | Option.none => Option.none
            | some (t, data) =>
              match readIntLE 2 data with
              | Option.none => Option.none
              | some (off, data) =>
                match mkTz off with
                | Option.none => Option.none
                | some tz =>
                  match mkTime (t.tdiv 3600000000) ((t.tdiv 60000000).tmod 60)
                      ((t.tdiv 1000000).tmod 60) (t.tmod 1000000) (some tz) with
                  | some v => some (v, type, data)
                  | Option.none => Option.none
          else if code = 16 then
            -- TIMESTAMP: C truncating division; a negative microsecond
            -- remainder makes the CPython constructor fail (fatal)
            match readIntLE 8 data with
            | Option.none => Option.none
            | some (ts, data) =>
              let c := gmtimeM (ts.tdiv 1000000)
              match mkDateTime c.1 c.2.1 c.2.2.1 c.2.2.2.1 c.2.2.2.2.1 c.2.2.2.2.2
                  (ts.tmod 1000000) Option.none with
              | some v => some (v, type, data)
              | Option.none => Option.none
          else if code = 17 then
            -- TIMESTAMP_WITH_TIME_ZONE: stored instant is UTC; add the offset
            match readIntLE 8 data with
            | Option.none => Option.none
            | some (ts, data) =>
              match readIntLE 2 data with
              | Option.none => Option.none
              | some (off, data) =>
                let c := gmtimeM (ts.tdiv 1000000 + off * 60)
                match mkTz off with
                | Option.none => Option.none
                | some tz =>
                  match mkDateTime c.1 c.2.1 c.2.2.1 c.2.2.2.1 c.2.2.2.2.1
                      c.2.2.2.2.2 (ts.tmod 1000000) (some tz) with
                  | some v => some (v, type, data)
                  | Option.none => Option.none
          else if code = 18 then
            match readIntLE 4 data with
            | some (months, data) => some (.int months, type, data)
            | Option.none => Option.none
          else if code = 19 then
            -- INTERVAL_DAY_TO_SECOND: days is narrowed to i32 on wasm
            match readIntLE 8 data with
            | Option.none => Option.none
            | some (millis, data) =>
              match mkDelta (wrap32 (millis.tdiv 86400000))
                  ((millis.tdiv 1000).tmod 86400) ((millis.tmod 1000) * 1000) with
              | some v => some (v, type, data)
              | Option.none => Option.none
          else if code = 21 then
            match readBytes 16 data with
            | some (bs, data) => some (.uuid bs, type, data)
            | Option.none => Option.none
          else if code = 22 then
            match readBytes 16 data with
            | some (bs, data) =>
              if leNat (bs.take 4) = 0 ∧ leNat ((bs.drop 4).take 4) = 0 ∧
                  leNat ((bs.drop 8).take 4) = 4294901760 then
                some (.ipv4 (bs.drop 12), type, data)
              else some (.ipv6 bs, type, data)
            | Option.none => Option.none
          else Option.none

/-! ## The value encoder (`buildResult`) -/

/-- One invocation of the engine-imported `return_error(errorCode, message,
messageSize, traceback, tracebackSize)`. -/
structure ErrCall where
  code : Int
  message : String
  traceback : String
deriving DecidableEq

/-- Outcome of `buildResult`: success with the appended bytes and the
remaining descriptor suffix, a recoverable failure after exactly one
`return_error` call (the C function returns `false`), or a fatal abort. -/
inductive EncResult where
  | ok (bytes : List Nat) (restType : List Nat) : EncResult
  | err (call : ErrCall) : EncResult
  | fatal : EncResult
deriving DecidableEq

/-- The `resultError` report: `FUNCTION_IMPLEMENTATION_ERROR` (65549) with
a message naming the Trino type and no traceback.  (The C message also
interpolates the Python type name and exception text, which the model
elides.) -/
def resultErr (trinoType : String) : ErrCall :=
  ⟨65549, "Failed to convert Python result to Trino type " ++ trinoType, ""⟩

/-- The `overflowError` report: `NUMERIC_VALUE_OUT_OF_RANGE` (19). -/
def overflowErr (trinoType : String) : ErrCall :=
  ⟨19, "Value out of range for " ++ trinoType, ""⟩

/-- The `memoryError` report: `EXCEEDED_FUNCTION_MEMORY_LIMIT` (37) with a
fixed message and empty traceback. -/
def memoryErrCall : ErrCall :=
  ⟨37, "Python MemoryError (no traceback available)", ""⟩

/-- Prefix the presence byte `1` onto a successful encoding (the C code
appends the presence flag before the type-specific payload). -/
def prependOne : EncResult → EncResult
  | .ok bs t => .ok (1 :: bs) t
  | r => r

/-- `buildResult fuel type input` encodes one value, pyhost.c lines
485-839.  It writes the presence flag (0 for `Py_None`, then one
descriptor subtree is skipped; 1 otherwise), reads the 32-bit type code
and switches on it.  Mirrors the C source including its omissions: the
ARRAY and MAP cases never skip the element/key/value subtrees when the
container is empty. -/
def buildResult : Nat → List Nat → PyValue → EncResult
  | 0, _, _ => .fatal
  | fuel+1, type, input =>
    if pyIsNone input then
      match skipType fuel type with
      | some type => .ok [0] type
      | Option.none => .fatal
    else
      prependOne <|
        match readIntLE 4 type with
        | Option.none => .fatal
        | some (code, type) =>
          if code = 0 then
            match input with
            | .tuple fs =>
              match readIntLE 4 type with
              | Option.none => .fatal
              | some (count, type) =>
                if (fs.length : Int) ≠ count then .err (resultErr "ROW")
                else
                  let step := fun (acc : EncResult) (v : PyValue) =>
                    match acc with
                    | .ok bs t =>
                      match buildResult fuel t v with
                      | .ok b2 t2 => .ok (bs ++ b2) t2
                      | e => e
                    | e => e
                  fs.foldl step (.ok [] type)
            | _ => .err (resultErr "ROW")
          else if code = 1 then
            match input with
            | .list vs =>
              let saved := type
              let step := fun (acc : EncResult) (v : PyValue) =>
                match acc with
                | .ok bs _ =>
                  match buildResult fuel saved v with
                  | .ok b2 t2 => .ok (bs ++ b2) t2
                  | e => e
                | e => e
              vs.foldl step (.ok (intLE 4 (vs.length : Int)) saved)
            | _ => .err (resultErr "ARRAY")
          else if code = 2 then
            match input with
            | .dict es =>
              let saved := type
              let step := fun (acc : EncResult) (kv : PyValue × PyValue) =>
                match acc with
                | .ok bs _ =>
                  match buildResult fuel saved kv.1 with
                  | .ok bk t1 =>
                    match buildResult fuel t1 kv.2 with
                    | .ok bv t2 => .ok (bs ++ bk ++ bv) t2
                    | e => e
                  | e => e
                | e => e
              es.foldl step (.ok (intLE 4 (es.length : Int)) saved)
            | _ => .err (resultErr "MAP")
          else if code = 3 then
            .ok [if pyTruth input then 1 else 0] type
          else if code = 4 then
            match pyToInt input with
            | some v =>
              if v < -(2 ^ 63) ∨ 2 ^ 63 ≤ v then .err (overflowErr "BIGINT")
              else .ok (intLE 8 v) type
            | Option.none => .err (resultErr "BIGINT")
          else if code = 5 then
            match pyToInt input with
            | some v =>
              if v < -(2 ^ 31) ∨ 2 ^ 31 ≤ v then .err (overflowErr "INTEGER")
              else .ok (intLE 4 v) type
            | Option.none => .err (resultErr "INTEGER")
          else if code = 6 then
            match pyToInt input with
            | some v =>
              if v < -(2 ^ 15) ∨ 2 ^ 15 ≤ v then .err (overflowErr "SMALLINT")
              else .ok (intLE 2 v) type
            | Option.none => .err (resultErr "SMALLINT")
          else if code = 7 then
            match pyToInt input with
            | some v =>
              if v < -(2 ^ 7) ∨ 2 ^ 7 ≤ v then .err (overflowErr "TINYINT")
              else .ok (intLE 1 v) type
            | Option.none => .err (resultErr "TINYINT")
          else if code = 8 then
            match pyFloatAsDouble input with
            | some bits => .ok (natLE 8 bits) type
            | Option.none => .err (resultErr "DOUBLE")
          else if code = 9 then
            match pyFloatAsDouble input with
            | some bits => .ok (natLE 4 (f64ToF32 bits)) type
            | Option.none => .err (resultErr "REAL")
          else if code = 10 then
            match input with
            | .decimal c e =>
              let s := decimalToString c e
              .ok (intLE 4 (s.length : Int) ++ s) type
            | _ => .err (resultErr "DECIMAL")
          else if code = 11 ∨ code = 20 then
            let typeName := if code = 11 then "VARCHAR" else "JSON"
            match input with
            | .str bs => .ok (intLE 4 (bs.length : Int) ++ bs) type
            | _ => .err (resultErr typeName)
          else if code = 12 then
            match input with
            | .bytes bs => .ok (intLE 4 (bs.length : Int) ++ bs) type
            | _ => .err (resultErr "VARBINARY")
          else if code = 13 then
            -- DATE accepts date and (its subclass) datetime
            match input with
            | .date y m d => .ok (intLE 4 ((timegmM y m d 0 0 0).tdiv 86400)) type
            | .datetime y m d _ _ _ _ _ =>
              .ok (intLE 4 ((timegmM y m d 0 0 0).tdiv 86400)) type
            | _ => .err (resultErr "DATE")
          else if code = 14 then
            match input with
            | .time h mi s us _ =>
              .ok (intLE 8 (h * 3600000000 + mi * 60000000 + s * 1000000 + us)) type
            | _ => .err (resultErr "TIME")
          else if code = 15 then
            match input with
            | .time h mi s us tz =>
              match tz with
              | some m =>
                .ok (intLE 8 (h * 3600000000 + mi * 60000000 + s * 1000000 + us) ++
                  intLE 2 (offsetMinutesOfTz m)) type
              | Option.none => .err (resultErr "TIME WITH TIME ZONE")
            | _ => .err (resultErr "TIME WITH TIME ZONE")
          else if code = 16 then
            match input with
            | .datetime y mo d h mi s us _ =>
              .ok (intLE 8 (timegmM y mo d h mi s * 1000000 + us)) type
            | _ => .err (resultErr "TIMESTAMP")
          else if code = 17 then
            match input with
            | .datetime y mo d h mi s us tz =>
              match tz with
              | some m =>
                let off := offsetMinutesOfTz m
                .ok (intLE 8 (timegmM y mo d h mi s * 1000000 + us -
                  off * 60 * 1000000) ++ intLE 2 off) type
              | Option.none => .err (resultErr "TIMESTAMP WITH TIME ZONE")
            | _ => .err (resultErr "TIMESTAMP WITH TIME ZONE")
          else if code = 18 then
            match pyToInt input with
            | some v =>
              if v < -(2 ^ 31) ∨ 2 ^ 31 ≤ v then
                .err (overflowErr "INTERVAL YEAR TO MONTH")
              else .ok (intLE 4 v) type
            | Option.none => .err (resultErr "INTERVAL YEAR TO MONTH")
          else if code = 19 then
            -- days * 86400000 is i32 arithmetic on the wasm target
            match input with
            | .timedelta d s us =>
              .ok (intLE 8 (wrap32 (d * 86400000 + s * 1000 + (us + 500).tdiv 1000)))
                type
            | _ => .err (resultErr "INTERVAL DAY TO SECOND")
          else if code = 21 then
            match input with
            | .uuid bs => .ok bs type
            | _ => .err (resultErr "UUID")
          else if code = 22 then
            -- an IPv4 address is first mapped to `ipv6_mapped`, then `packed`
            match input with
            | .ipv4 bs => .ok ([0, 0, 0, 0, 0, 0, 0, 0, 0, 0, 255, 255] ++ bs) type
            | .ipv6 bs => .ok bs type
            | _ => .err (resultErr "IPADDRESS")
          else .fatal

/-! ## Error translation and the `execute` export -/

/-- A raised Python exception as the error translator distinguishes them:
a runtime type error (with its formatted traceback), an out-of-memory
condition, a typed Trino error raised by user code, or anything else. -/
inductive PyExc where
  | typeError (msg tb : String) : PyExc
  | memoryError : PyExc
  | trinoError (code : Int) (msg tb : String) : PyExc
  | other (msg tb : String) : PyExc

/-- The `PyErr_ExceptionMatches(PyExc_MemoryError)` test. -/
def isMemoryError : PyExc → Bool
  | .memoryError => true
  | _ => false

/-- Modelled from the spec: the companion library helper
`_trino_error_result` (module `trino`, not in `src/`) inspects a raised
exception and returns the `(errorCode, message, traceback)` triple —
the code carried by a typed Trino error verbatim, and
`FUNCTION_IMPLEMENTATION_ERROR` (65549) for every other failure, with the
runtime's formatted traceback.  Formatting a MemoryError exhausts memory
again, so there the helper itself raises. -/
def specTrinoErrorResult : PyExc → Except PyExc (Int × String × String)
  | .trinoError code msg tb => .ok (code, msg, tb)
  | .typeError msg tb => .ok (65549, msg, tb)
  | .other msg tb => .ok (65549, msg, tb)
  | .memoryError => .error .memoryError

/-- `handleTrinoError` of pyhost.c: call the helper on the exception and
forward its triple to `return_error`; if the helper itself raises a
MemoryError, fall back to the fixed code-37 report; if it raises anything
else, abort the guest (`FATAL`, modelled as `Option.none`).  The helper is
a parameter because it lives in the companion library. -/
def handleTrinoError (helper : PyExc → Except PyExc (Int × String × String))
    (e : PyExc) : Option ErrCall :=
  match helper e with
  | .error he => if isMemoryError he then some memoryErrCall else Option.none
  | .ok (code, msg, tb) => some ⟨code, msg, tb⟩

/-- `execute` of pyhost.c for one row.  Arguments are decoded from the
argument descriptor and payload; the user function (a parameter, located
by `setup`) is applied; on a raised exception the error translator runs
and `execute` returns the null pointer; on success the result is encoded
against the return descriptor into a buffer whose first four bytes are the
little-endian 32-bit payload length.  The result pairs the returned
buffer (`Option.none` for the null pointer) with the list of
`return_error` calls made; the outer `Option.none` is a fatal abort. -/
def execute (fuel : Nat) (userFn : PyValue → Except PyExc PyValue)
    (helper : PyExc → Except PyExc (Int × String × String))
    (argType retType data : List Nat) :
    Option (Option (List Nat) × List ErrCall) :=
  match doBuildArgs fuel argType data with
  | Option.none => Option.none
  | some (args, _, _) =>
    match userFn args with
    | .error e =>
      match handleTrinoError helper e with
      | Option.none => Option.none
      | some call => some (Option.none, [call])
    | .ok value =>
      match buildResult fuel retType value with
      | .ok bytes _ => some (some (intLE 4 (bytes.length : Int) ++ bytes), [])
      | .err call => some (Option.none, [call])
      | .fatal => Option.none

/-! ## Byte-level reading lemmas -/

theorem natLE_length (w n : Nat) : (natLE w n).length = w := by
  induction w generalizing n with
  | zero => rfl
  | succ w ih => simp [natLE, ih]

theorem leNat_natLE (w n : Nat) : leNat (natLE w n) = n % 256 ^ w := by
  induction w generalizing n with
  | zero => simp [natLE, leNat, Nat.mod_one]
  | succ w ih =>
    simp only [natLE, leNat, ih]
    rw [pow_succ, mul_comm (256 ^ w) 256, Nat.mod_mul]

theorem readBytes_append (bs r : List Nat) :
    readBytes bs.length (bs ++ r) = some (bs, r) := by
  induction bs with
  | nil => rfl
  | cons b bs ih => simp [readBytes, ih]

theorem readIntLE_natLE (w n : Nat) (r : List Nat) :
    readIntLE w (natLE w n ++ r) =
      some (toSigned (2 ^ (8 * w - 1)) (n % 256 ^ w), r) := by
  have h := readBytes_append (natLE w n) r
  rw [natLE_length] at h
  simp [readIntLE, h, leNat_natLE]

theorem readIntLE_natLE_small (n : Nat) (hn : n < 2 ^ 31) (r : List Nat) :
    readIntLE 4 (natLE 4 n ++ r) = some ((n : Int), r) := by
  rw [readIntLE_natLE]
  have h1 : n % 256 ^ 4 = n := Nat.mod_eq_of_lt (by norm_num at hn ⊢; omega)
  have h2 : toSigned (2 ^ (8 * 4 - 1)) n = (n : Int) := by
    simp only [toSigned, if_pos (by norm_num at hn ⊢; omega : n < 2 ^ (8 * 4 - 1))]
  rw [h1, h2]

theorem toSigned_emod (M : Nat) (v : Int) (hlo : -(M : Int) ≤ v)
    (hhi : v < (M : Int)) :
    toSigned M ((v.emod (2 * (M : Int))).toNat) = v := by
  have hMpos : (0 : Int) < 2 * (M : Int) := by omega
  have hnn : 0 ≤ v.emod (2 * (M : Int)) := Int.emod_nonneg v (by omega)
  have hlt : v.emod (2 * (M : Int)) < 2 * (M : Int) := Int.emod_lt_of_pos v hMpos
  rcases le_or_lt 0 v with hv | hv
  · have hveq : v.emod (2 * (M : Int)) = v := Int.emod_eq_of_lt hv (by omega)
    simp only [toSigned]
    split <;> omega
  · have hveq : v.emod (2 * (M : Int)) = v + 2 * (M : Int) := by
      have h1 : (v + 2 * (M : Int)).emod (2 * (M : Int)) = v.emod (2 * (M : Int)) := by
        conv_lhs => rw [show v + 2 * (M : Int) = v + 2 * (M : Int) * 1 by ring]
        exact Int.add_mul_emod_self_left v (2 * (M : Int)) 1
      have h2 : (v + 2 * (M : Int)).emod (2 * (M : Int)) = v + 2 * (M : Int) :=
        Int.emod_eq_of_lt (by omega) (by omega)
      omega
    simp only [toSigned]
    split <;> omega

theorem readIntLE_intLE (w : Nat) (hw : 1 ≤ w) (v : Int)
    (hlo : -((2 ^ (8 * w - 1) : Nat) : Int) ≤ v)
    (hhi : v < ((2 ^ (8 * w - 1) : Nat) : Int)) (r : List Nat) :
    readIntLE w (intLE w v ++ r) = some (v, r) := by
  have hsplit : (2 : Int) ^ (8 * w) = 2 * ((2 ^ (8 * w - 1) : Nat) : Int) := by
    push_cast
    rw [← pow_succ']
    congr 1
    omega
  have hread : readIntLE w (intLE w v ++ r) =
      some (toSigned (2 ^ (8 * w - 1))
        ((v.emod ((2 : Int) ^ (8 * w))).toNat % 256 ^ w), r) := by
    have h := readBytes_append (natLE w (v.emod ((2 : Int) ^ (8 * w))).toNat) r
    rw [natLE_length] at h
    simp [readIntLE, intLE, h, leNat_natLE]
  have h256 : (256 : Nat) ^ w = 2 ^ (8 * w) := by
    rw [show (256 : Nat) = 2 ^ 8 from rfl, ← pow_mul]
  have hMpos : (0 : Int) < 2 ^ (8 * w) := by positivity
  have hlt : (v.emod ((2 : Int) ^ (8 * w))).toNat < 256 ^ w := by
    have h1 : v.emod (2 ^ (8 * w)) < 2 ^ (8 * w) := Int.emod_lt_of_pos v hMpos
    have h2 : 0 ≤ v.emod (2 ^ (8 * w)) := Int.emod_nonneg v (by omega)
    have h3 : ((2 ^ (8 * w) : Nat) : Int) = (2 : Int) ^ (8 * w) := by push_cast; ring
    rw [h256]
    omega
  rw [Nat.mod_eq_of_lt hlt] at hread
  rw [hread, hsplit, toSigned_emod _ v hlo hhi]

/-! ## Correctness of the descriptor walker -/

/-- Any byte list of a well-formed subtree bounds the recursion depth the
walker needs: each recursive call strips at least four bytes. -/
theorem descBytes_length_pos {bs : List Nat} (h : DescBytes bs) : 4 ≤ bs.length := by
  cases h with
  | scalar c h3 h22 => simp [natLE_length]
  | row fs hlen hf => simp [natLE_length]
  | array e he => simp [natLE_length]
  | map k v hk hv => simp [natLE_length]

theorem skipType_descBytes {bs : List Nat} (h : DescBytes bs) :
    ∀ fuel rest, bs.length ≤ fuel → skipType fuel (bs ++ rest) = some rest := by
  induction h with
  | scalar c h3 h22 =>
    intro fuel rest hfuel
    rw [natLE_length] at hfuel
    obtain ⟨f, rfl⟩ : ∃ f, fuel = f + 1 := ⟨fuel - 1, by omega⟩
    have hc : c < 2 ^ 31 := by omega
    simp only [skipType, readIntLE_natLE_small c hc rest]
    have h0 : ((c : Int) = 0) = False := by simp; omega
    have h1 : ((c : Int) = 1) = False := by simp; omega
    have h2 : ((c : Int) = 2) = False := by simp; omega
    simp [h0, h1, h2]
    exact ⟨h3, h22⟩
  | row fs hlen hf ih =>
    intro fuel rest hfuel
    simp only [List.length_append, natLE_length] at hfuel
    obtain ⟨f, rfl⟩ : ∃ f, fuel = f + 1 := ⟨fuel - 1, by omega⟩
    simp only [List.append_assoc, skipType,
      readIntLE_natLE_small 0 (by norm_num) _,
      readIntLE_natLE_small fs.length (by omega) _]
    simp only [if_pos rfl, Int.toNat_natCast]
    -- the field loop
    have hlenf : fs.flatten.length ≤ f := by omega
    clear hfuel hlen
    induction fs with
    | nil => simp [iterN]
    | cons b fs ihfs =>
      have hb : DescBytes b := hf b (by simp)
      have hbf : ∀ b' ∈ fs, DescBytes b' := fun b' hb' => hf b' (by simp [hb'])
      have hblen : b.length ≤ f := by
        simp [List.flatten] at hlenf; omega
      simp only [List.length_cons, List.flatten_cons, List.append_assoc, iterN]
      have hstep : skipType f (b ++ (fs.flatten ++ rest)) = some (fs.flatten ++ rest) :=
        ih b (by simp) f (fs.flatten ++ rest) hblen
      simp only [Option.bind_eq_bind, Option.some_bind, hstep]
      exact ihfs hbf (fun b' hb' => ih b' (by simp [hb'])) (by
        simp [List.flatten] at hlenf ⊢; omega)
  | array e he ih =>
    intro fuel rest hfuel
    simp only [List.length_append, natLE_length] at hfuel
    obtain ⟨f, rfl⟩ : ∃ f, fuel = f + 1 := ⟨fuel - 1, by omega⟩
    simp only [List.append_assoc, skipType, readIntLE_natLE_small 1 (by norm_num) _]
    norm_num
    exact ih f rest (by omega)
  | map k v hk hv ihk ihv =>
    intro fuel rest hfuel
    simp only [List.length_append, natLE_length] at hfuel
    obtain ⟨f, rfl⟩ : ∃ f, fuel = f + 1 := ⟨fuel - 1, by omega⟩
    simp only [List.append_assoc, skipType, readIntLE_natLE_small 2 (by norm_num) _]
    norm_num
    rw [ihk f (v ++ rest) (by omega)]
    exact ihv f rest (by omega)

/-- An unknown (positive) type code makes the walker fatal. -/
theorem skipType_unknown (c : Nat) (h23 : 23 ≤ c) (hc : c < 2 ^ 32)
    (fuel : Nat) (rest : List Nat) :
    skipType (fuel + 1) (natLE 4 c ++ rest) = none := by
  simp only [skipType, readIntLE_natLE]
  have hmod : c % 256 ^ 4 = c := Nat.mod_eq_of_lt (lt_of_lt_of_le hc (by norm_num))
  rw [hmod]
  have hci : (c : Int) < 2 ^ 32 := by exact_mod_cast hc
  by_cases hbig : c < 2 ^ 31
  · have ht : toSigned (2 ^ (8 * 4 - 1)) c = (c : Int) := by
      simp only [toSigned]
      rw [if_pos (show c < 2 ^ (8 * 4 - 1) from hbig)]
    rw [ht]
    have h0 : ¬((c : Int) = 0) := by omega
    have h1 : ¬((c : Int) = 1) := by omega
    have h2 : ¬((c : Int) = 2) := by omega
    have h3 : ¬(3 ≤ (c : Int) ∧ (c : Int) ≤ 22) := by
      rintro ⟨-, hle⟩
      have : c ≤ 22 := by exact_mod_cast hle
      omega
    simp only [h0, h1, h2, h3, if_false]
  · have ht : toSigned (2 ^ (8 * 4 - 1)) c = (c : Int) - 2 * 2 ^ (8 * 4 - 1) := by
      simp only [toSigned]
      rw [if_neg (show ¬c < 2 ^ (8 * 4 - 1) from hbig)]
      push_cast
      ring
    rw [ht]
    have hneg : (c : Int) - 2 * 2 ^ (8 * 4 - 1) < 0 := by
      have h31 : (2 : Int) * 2 ^ (8 * 4 - 1) = 2 ^ 32 := by norm_num
      omega
    have h0 : ¬((c : Int) - 2 * 2 ^ (8 * 4 - 1) = 0) := by omega
    have h1 : ¬((c : Int) - 2 * 2 ^ (8 * 4 - 1) = 1) := by omega
    have h2 : ¬((c : Int) - 2 * 2 ^ (8 * 4 - 1) = 2) := by omega
    have h3 : ¬(3 ≤ (c : Int) - 2 * 2 ^ (8 * 4 - 1) ∧
        (c : Int) - 2 * 2 ^ (8 * 4 - 1) ≤ 22) := by
      rintro ⟨hge, -⟩; omega
    simp only [h0, h1, h2, h3, if_false]

/-! ## Auxiliary lemmas about the decoder and encoder -/

/-- Decoding a null: presence byte 0 skips one descriptor subtree and
yields `Py_None`, consuming nothing else. -/
theorem doBuildArgs_null {bs : List Nat} (h : DescBytes bs) (fuel : Nat)
    (rest data : List Nat) (hfuel : bs.length ≤ fuel) :
    doBuildArgs (fuel + 1) (bs ++ rest) (0 :: data) =
      some (PyValue.none, rest, data) := by
  simp only [doBuildArgs]
  norm_num [toSigned]
  rw [skipType_descBytes h fuel rest hfuel]

/-- Encoding a null: one presence byte 0 is written and one descriptor
subtree is skipped. -/
theorem buildResult_null {bs : List Nat} (h : DescBytes bs) (fuel : Nat)
    (rest : List Nat) (hfuel : bs.length ≤ fuel) :
    buildResult (fuel + 1) (bs ++ rest) PyValue.none = .ok [0] rest := by
  simp only [buildResult, pyIsNone]
  rw [skipType_descBytes h fuel rest hfuel]
  simp

/-- A successful `prependOne` result starts with the presence byte 1. -/
theorem prependOne_ok (X : EncResult) (bytes t' : List Nat)
    (h : prependOne X = .ok bytes t') : ∃ tail, bytes = 1 :: tail := by
  cases X with
  | ok bs t => exact ⟨bs, by injection h with h1 h2; exact h1.symm⟩
  | err c => exact absurd h (by simp [prependOne])
  | fatal => exact absurd h (by simp [prependOne])

/-- Unfolding of the decoder on a TIMESTAMP_WITH_TIME_ZONE descriptor:
read 64-bit microseconds and the 16-bit offset, add `offset * 60` seconds
to the truncated UTC seconds, split with `gmtime`, build the timezone and
the aware datetime. -/
theorem doBuildArgs_timestampTz (fuel : Nat) (rt data : List Nat) (ts off : Int)
    (hts1 : -(2 ^ 63) ≤ ts) (hts2 : ts < 2 ^ 63)
    (hoff1 : -(2 ^ 15) ≤ off) (hoff2 : off < 2 ^ 15) :
    doBuildArgs (fuel + 1) (natLE 4 17 ++ rt)
      (1 :: (intLE 8 ts ++ (intLE 2 off ++ data))) =
    (match gmtimeM (ts.tdiv 1000000 + off * 60), mkTz off with
     | (y, mo, d, h, mi, s), some tz =>
       (mkDateTime y mo d h mi s (ts.tmod 1000000) (some tz)).map
         (fun v => (v, rt, data))
     | _, Option.none => Option.none) := by
  have h17 : readIntLE 4 (natLE 4 17 ++ rt) = some ((17 : Int), rt) :=
    readIntLE_natLE_small 17 (by norm_num) rt
  have h8 : readIntLE 8 (intLE 8 ts ++ (intLE 2 off ++ data)) =
      some (ts, intLE 2 off ++ data) :=
    readIntLE_intLE 8 (by norm_num) ts (by push_cast; exact hts1)
      (by push_cast; exact hts2) _
  have h2 : readIntLE 2 (intLE 2 off ++ data) = some (off, data) :=
    readIntLE_intLE 2 (by norm_num) off (by push_cast; exact hoff1)
      (by push_cast; exact hoff2) _
  simp only [doBuildArgs, h17, h8, h2, toSigned]
  norm_num
  rcases gmtimeM (ts.tdiv 1000000 + off * 60) with ⟨y, mo, d, h, mi, s⟩
  rcases htz : mkTz off with _ | tz
  · rfl
  · simp only [Option.map]
    rcases mkDateTime y mo d h mi s (ts.tmod 1000000) (some tz) with _ | v
    · rfl
    · rfl

/-! ## The claims -/

/-- C1.  The encode-then-decode round trip fails on the code: encoding the
well-typed value `([], 7)` against `ROW(ARRAY(BOOLEAN), INTEGER)` leaves
the descriptor cursor at the ARRAY's element subtree (the encoder never
skips it for an empty array), so the INTEGER field is written against the
BOOLEAN descriptor as a single byte; decoding the produced bytes under the
same descriptor then runs out of data and aborts instead of returning the
original value. -/
theorem claim_C1_roundtrip_bug :
    buildResult 9
      (natLE 4 0 ++ natLE 4 2 ++ natLE 4 1 ++ natLE 4 3 ++ natLE 4 5)
      (.tuple [.list [], .int 7]) =
      .ok [1, 1, 0, 0, 0, 0, 1, 1] (natLE 4 5) ∧
    doBuildArgs 9
      (natLE 4 0 ++ natLE 4 2 ++ natLE 4 1 ++ natLE 4 3 ++ natLE 4 5)
      [1, 1, 0, 0, 0, 0, 1, 1] = Option.none :=
  ⟨rfl, rfl⟩

/-- C2.  Empty containers and the descriptor cursor: the decoder's ARRAY
case does skip the element subtree when the count is 0 (first conjunct),
but the decoder's MAP case and the encoder's ARRAY and MAP cases leave the
cursor at the element (or key) subtree (remaining conjuncts), contradicting
the claim that all four advance past the subtrees exactly once. -/
theorem claim_C2_empty_containers :
    (∀ R D : List Nat, doBuildArgs 9 (natLE 4 1 ++ natLE 4 3 ++ R)
      (1 :: 0 :: 0 :: 0 :: 0 :: D) = some (.list [], R, D)) ∧
    (∀ R D : List Nat, doBuildArgs 9 (natLE 4 2 ++ natLE 4 3 ++ natLE 4 3 ++ R)
      (1 :: 0 :: 0 :: 0 :: 0 :: D) =
      some (.dict [], natLE 4 3 ++ natLE 4 3 ++ R, D)) ∧
    (∀ R : List Nat, buildResult 9 (natLE 4 1 ++ natLE 4 3 ++ R) (.list []) =
      .ok [1, 0, 0, 0, 0] (natLE 4 3 ++ R)) ∧
    (∀ R : List Nat, buildResult 9 (natLE 4 2 ++ natLE 4 3 ++ natLE 4 3 ++ R)
      (.dict []) = .ok [1, 0, 0, 0, 0] (natLE 4 3 ++ natLE 4 3 ++ R)) :=
  ⟨fun _ _ => rfl, fun _ _ => rfl, fun _ => rfl, fun _ => rfl⟩

/-- C3.  A null at any position consumes exactly one data byte (the
presence byte 0) and advances the descriptor cursor past exactly one
complete subtree, leaving it aligned for the next sibling; symmetrically
the encoder writes exactly the byte 0 and advances the cursor past one
subtree.  Quantifying over the trailing descriptor `rest` and data
expresses the alignment at every position of every nesting. -/
theorem claim_C3_null_propagation :
    (∀ bs, DescBytes bs → ∀ fuel rest data, bs.length ≤ fuel →
      doBuildArgs (fuel + 1) (bs ++ rest) (0 :: data) =
        some (PyValue.none, rest, data)) ∧
    (∀ bs, DescBytes bs → ∀ fuel rest, bs.length ≤ fuel →
      buildResult (fuel + 1) (bs ++ rest) PyValue.none = .ok [0] rest) :=
  ⟨fun _ h fuel rest data hf => doBuildArgs_null h fuel rest data hf,
   fun _ h fuel rest hf => buildResult_null h fuel rest hf⟩

theorem claim_C3_null_propagation_witness :
    DescBytes (natLE 4 1 ++ natLE 4 4) ∧
    doBuildArgs 9 ((natLE 4 1 ++ natLE 4 4) ++ [7, 7]) (0 :: [5]) =
      some (PyValue.none, [7, 7], [5]) ∧
    buildResult 9 ((natLE 4 1 ++ natLE 4 4) ++ [7, 7]) PyValue.none =
      .ok [0] [7, 7] := by
  have hd : DescBytes (natLE 4 1 ++ natLE 4 4) :=
    DescBytes.array _ (DescBytes.scalar 4 (by norm_num) (by norm_num))
  exact ⟨hd,
    claim_C3_null_propagation.1 _ hd 8 [7, 7] [5] (by decide),
    claim_C3_null_propagation.2 _ hd 8 [7, 7] (by decide)⟩

/-- C4.  `skipType`, started at a well-formed descriptor subtree, lands
exactly at the end of the subtree for any trailing suffix (so walking a
whole descriptor from position 0 lands on its total length when the suffix
is empty); it takes no data stream at all; and any unknown type code is
fatal.  The fuel bound `bs.length` reflects that each recursion level
consumes at least four descriptor bytes. -/
theorem claim_C4_skip_subtree :
    (∀ bs, DescBytes bs → ∀ fuel rest, bs.length ≤ fuel →
      skipType fuel (bs ++ rest) = some rest) ∧
    (∀ c : Nat, 23 ≤ c → c < 2 ^ 32 → ∀ fuel rest,
      skipType (fuel + 1) (natLE 4 c ++ rest) = none) :=
  ⟨fun _ h fuel rest hf => skipType_descBytes h fuel rest hf,
   fun c h23 hc fuel rest => skipType_unknown c h23 hc fuel rest⟩

theorem claim_C4_skip_subtree_witness :
    skipType 16 ((natLE 4 0 ++ natLE 4 1 ++ [natLE 4 1 ++ natLE 4 22].flatten)
      ++ [9]) = some [9] ∧
    skipType 5 (natLE 4 23 ++ [7]) = none := by
  have hd : DescBytes (natLE 4 0 ++ natLE 4 1 ++ [natLE 4 1 ++ natLE 4 22].flatten) := by
    have harr : DescBytes (natLE 4 1 ++ natLE 4 22) :=
      DescBytes.array _ (DescBytes.scalar 22 (by norm_num) (by norm_num))
    have h := DescBytes.row [natLE 4 1 ++ natLE 4 22] (by norm_num)
      (by intro b hb; simp at hb; subst hb; exact harr)
    simpa using h
  exact ⟨claim_C4_skip_subtree.1 _ hd 16 [9] (by decide),
    claim_C4_skip_subtree.2 23 (by norm_num) (by norm_num) 4 [7]⟩

/-- C5.  Integer narrowing on encode: INTEGER succeeds exactly on the
signed 32-bit range (so `2^31 - 1` succeeds and `2^31` fails), SMALLINT on
the signed 16-bit range, TINYINT on the signed 8-bit range, and each
out-of-range value reports `NUMERIC_VALUE_OUT_OF_RANGE` (code 19) through
`return_error` and returns failure. -/
theorem claim_C5_integer_narrowing :
    (∀ fuel rt v, buildResult (fuel + 1) (natLE 4 5 ++ rt) (.int v) =
      if -(2 ^ 31) ≤ v ∧ v < 2 ^ 31 then .ok (1 :: intLE 4 v) rt
      else .err ⟨19, "Value out of range for INTEGER", ""⟩) ∧
    (∀ fuel rt v, buildResult (fuel + 1) (natLE 4 6 ++ rt) (.int v) =
      if -(2 ^ 15) ≤ v ∧ v < 2 ^ 15 then .ok (1 :: intLE 2 v) rt
      else .err ⟨19, "Value out of range for SMALLINT", ""⟩) ∧
    (∀ fuel rt v, buildResult (fuel + 1) (natLE 4 7 ++ rt) (.int v) =
      if -(2 ^ 7) ≤ v ∧ v < 2 ^ 7 then .ok (1 :: intLE 1 v) rt
      else .err ⟨19, "Value out of range for TINYINT", ""⟩) := by
  refine ⟨fun fuel rt v => ?_, fun fuel rt v => ?_, fun fuel rt v => ?_⟩
  · simp only [buildResult, pyIsNone, readIntLE_natLE_small 5 (by norm_num) rt, pyToInt]
    norm_num
    by_cases hr : (-2147483648 : Int) ≤ v ∧ v < 2147483648
    · rw [if_neg (show ¬(v < -2147483648 ∨ (2147483648 : Int) ≤ v) by omega),
        if_pos hr]
      rfl
    · rw [if_pos (show v < -2147483648 ∨ (2147483648 : Int) ≤ v by omega),
        if_neg hr]
      rfl
  · simp only [buildResult, pyIsNone, readIntLE_natLE_small 6 (by norm_num) rt, pyToInt]
    norm_num
    by_cases hr : (-32768 : Int) ≤ v ∧ v < 32768
    · rw [if_neg (show ¬(v < -32768 ∨ (32768 : Int) ≤ v) by omega), if_pos hr]
      rfl
    · rw [if_pos (show v < -32768 ∨ (32768 : Int) ≤ v by omega), if_neg hr]
      rfl
  · simp only [buildResult, pyIsNone, readIntLE_natLE_small 7 (by norm_num) rt, pyToInt]
    norm_num
    by_cases hr : (-128 : Int) ≤ v ∧ v < 128
    · rw [if_neg (show ¬(v < -128 ∨ (128 : Int) ≤ v) by omega), if_pos hr]
      rfl
    · rw [if_pos (show v < -128 ∨ (128 : Int) ≤ v by omega), if_neg hr]
      rfl

/-- C6.  TIMESTAMP_WITH_TIME_ZONE.  First conjunct: the encoder always
writes micros computed from the wall-clock fields as UTC minus
`offsetMinutes * 60` seconds, then the 16-bit offset.  Second conjunct:
for every offset a Python timezone can hold (strictly between ±24h) the
offset-minutes computation returns the offset itself.  Third and fourth
conjuncts: encoding then decoding `(2024-01-15 10:30:00.000123, +05:30)`
stores the UTC instant 1705294800000123 and recovers the original
wall-clock reading with offset 330. -/
theorem claim_C6_timestamp_tz :
    (∀ fuel rt y mo d h mi s us m,
      buildResult (fuel + 1) (natLE 4 17 ++ rt) (.datetime y mo d h mi s us (some m)) =
        .ok (1 :: (intLE 8 (timegmM y mo d h mi s * 1000000 + us -
          offsetMinutesOfTz m * 60 * 1000000) ++ intLE 2 (offsetMinutesOfTz m))) rt) ∧
    (∀ m : Int, -1440 < m → m < 1440 → offsetMinutesOfTz m = m) ∧
    buildResult 9 (natLE 4 17) (.datetime 2024 1 15 10 30 0 123 (some 330)) =
      .ok (1 :: (intLE 8 1705294800000123 ++ intLE 2 330)) [] ∧
    doBuildArgs 9 (natLE 4 17) (1 :: (intLE 8 1705294800000123 ++ intLE 2 330)) =
      some (.datetime 2024 1 15 10 30 0 123 (some 330), [], []) := by
  refine ⟨fun fuel rt y mo d h mi s us m => ?_, fun m h1 h2 => ?_, rfl, ?_⟩
  · simp only [buildResult, pyIsNone, readIntLE_natLE_small 17 (by norm_num) rt]
    norm_num [prependOne]
  · simp only [offsetMinutesOfTz]
    omega
  · have h := doBuildArgs_timestampTz 8 [] [] 1705294800000123 330
      (by norm_num) (by norm_num) (by norm_num) (by norm_num)
    simp only [List.append_nil] at h
    rw [h]
    rfl

theorem claim_C6_timestamp_tz_witness :
    offsetMinutesOfTz 330 = 330 :=
  claim_C6_timestamp_tz.2.1 330 (by norm_num) (by norm_num)

/-- C7.  IPADDRESS is 16 wire bytes.  Decoding a value whose first twelve
bytes are the IPv4-mapped prefix yields an IPv4 address built from bytes
12..15; any other 16-byte value yields an IPv6 address; encoding an IPv4
address writes the prefix (ten zero bytes, two 0xFF bytes) followed by its
four bytes, and an IPv6 address writes its sixteen packed bytes. -/
theorem claim_C7_ipaddress :
    (∀ fuel rt c0 c1 c2 c3 (data : List Nat),
      doBuildArgs (fuel + 1) (natLE 4 22 ++ rt)
        (1 :: 0 :: 0 :: 0 :: 0 :: 0 :: 0 :: 0 :: 0 :: 0 :: 0 :: 255 :: 255 ::
          c0 :: c1 :: c2 :: c3 :: data) =
        some (.ipv4 [c0, c1, c2, c3], rt, data)) ∧
    (∀ fuel rt (bs data : List Nat), bs.length = 16 →
      ¬(leNat (bs.take 4) = 0 ∧ leNat ((bs.drop 4).take 4) = 0 ∧
        leNat ((bs.drop 8).take 4) = 4294901760) →
      doBuildArgs (fuel + 1) (natLE 4 22 ++ rt) (1 :: (bs ++ data)) =
        some (.ipv6 bs, rt, data)) ∧
    (∀ fuel rt (bs : List Nat),
      buildResult (fuel + 1) (natLE 4 22 ++ rt) (.ipv4 bs) =
        .ok (1 :: ([0, 0, 0, 0, 0, 0, 0, 0, 0, 0, 255, 255] ++ bs)) rt) ∧
    (∀ fuel rt (bs : List Nat),
      buildResult (fuel + 1) (natLE 4 22 ++ rt) (.ipv6 bs) =
        .ok (1 :: bs) rt) := by
  refine ⟨fun fuel rt c0 c1 c2 c3 data => ?_,
    fun fuel rt bs data hlen hcond => ?_,
    fun fuel rt bs => rfl, fun fuel rt bs => rfl⟩
  · show doBuildArgs (fuel + 1) (natLE 4 22 ++ rt)
      (1 :: (([0, 0, 0, 0, 0, 0, 0, 0, 0, 0, 255, 255, c0, c1, c2, c3] :
        List Nat) ++ data)) = some (.ipv4 [c0, c1, c2, c3], rt, data)
    have hrb : readBytes 16
        (([0, 0, 0, 0, 0, 0, 0, 0, 0, 0, 255, 255, c0, c1, c2, c3] :
          List Nat) ++ data) =
        some ([0, 0, 0, 0, 0, 0, 0, 0, 0, 0, 255, 255, c0, c1, c2, c3], data) := by
      have h := readBytes_append
        ([0, 0, 0, 0, 0, 0, 0, 0, 0, 0, 255, 255, c0, c1, c2, c3] : List Nat) data
      simpa using h
    simp only [doBuildArgs, readIntLE_natLE_small 22 (by norm_num) rt, hrb, toSigned]
    norm_num [leNat]
  · have hrb : readBytes 16 (bs ++ data) = some (bs, data) := by
      rw [← hlen]
      exact readBytes_append bs data
    simp only [doBuildArgs, readIntLE_natLE_small 22 (by norm_num) rt, hrb, toSigned]
    norm_num
    intro h1 h2 h3
    exact absurd ⟨h1, h2, h3⟩ hcond

theorem claim_C7_ipaddress_witness :
    doBuildArgs 9 (natLE 4 22)
      (1 :: 0 :: 0 :: 0 :: 0 :: 0 :: 0 :: 0 :: 0 :: 0 :: 0 :: 255 :: 255 ::
        10 :: 0 :: 0 :: 1 :: []) = some (.ipv4 [10, 0, 0, 1], [], []) ∧
    doBuildArgs 9 (natLE 4 22)
      (1 :: ([32, 1, 0, 0, 0, 0, 0, 0, 0, 0, 0, 0, 0, 0, 0, 1] ++ [])) =
      some (.ipv6 [32, 1, 0, 0, 0, 0, 0, 0, 0, 0, 0, 0, 0, 0, 0, 1], [], []) ∧
    buildResult 9 (natLE 4 22) (.ipv4 [10, 0, 0, 1]) =
      .ok (1 :: ([0, 0, 0, 0, 0, 0, 0, 0, 0, 0, 255, 255] ++ [10, 0, 0, 1])) [] :=
  ⟨claim_C7_ipaddress.1 8 [] 10 0 0 1 [],
   claim_C7_ipaddress.2.1 8 [] [32, 1, 0, 0, 0, 0, 0, 0, 0, 0, 0, 0, 0, 0, 0, 1] []
     (by decide) (by decide),
   claim_C7_ipaddress.2.2.1 8 [] [10, 0, 0, 1]⟩

/-- C8.  The error surface of `execute`.  When the user function raises,
`execute` makes exactly one `return_error` call, forwarding the triple the
`_trino_error_result` helper produced — for a runtime type error the code
is `FUNCTION_IMPLEMENTATION_ERROR` (65549) with the exception's (non-empty)
formatted traceback — and returns the null pointer with no result buffer.
On success it returns a buffer whose first four bytes are the little-endian
32-bit length of the encoded result that follows. -/
theorem claim_C8_error_surface :
    (∀ fuel (userFn : PyValue → Except PyExc PyValue) argType retType data
      args tr dr msg tb,
      doBuildArgs fuel argType data = some (args, tr, dr) →
      userFn args = .error (.typeError msg tb) →
      tb ≠ "" →
      execute fuel userFn specTrinoErrorResult argType retType data =
        some (Option.none, [⟨65549, msg, tb⟩])) ∧
    (∀ fuel (userFn : PyValue → Except PyExc PyValue) argType retType data
      args tr dr v bytes rt,
      doBuildArgs fuel argType data = some (args, tr, dr) →
      userFn args = .ok v →
      buildResult fuel retType v = .ok bytes rt →
      execute fuel userFn specTrinoErrorResult argType retType data =
        some (some (intLE 4 (bytes.length : Int) ++ bytes), [])) := by
  constructor
  · intro fuel userFn argType retType data args tr dr msg tb hdec huser htb
    simp only [execute, hdec, huser, handleTrinoError, specTrinoErrorResult]
  · intro fuel userFn argType retType data args tr dr v bytes rt hdec huser henc
    simp only [execute, hdec, huser, henc]

theorem claim_C8_error_surface_witness :
    execute 9 (fun _ => .error (.typeError "unsupported operand type" "Traceback: line 1"))
      specTrinoErrorResult (natLE 4 4) (natLE 4 4) [1, 42, 0, 0, 0, 0, 0, 0, 0] =
      some (Option.none, [⟨65549, "unsupported operand type", "Traceback: line 1"⟩]) ∧
    execute 9 (fun v => .ok v) specTrinoErrorResult
      (natLE 4 4) (natLE 4 4) [1, 42, 0, 0, 0, 0, 0, 0, 0] =
      some (some ([9, 0, 0, 0] ++ [1, 42, 0, 0, 0, 0, 0, 0, 0]), []) :=
  ⟨claim_C8_error_surface.1 9 _ (natLE 4 4) (natLE 4 4) _ (.int 42) [] []
      "unsupported operand type" "Traceback: line 1" rfl rfl (by decide),
   claim_C8_error_surface.2 9 _ (natLE 4 4) (natLE 4 4) _ (.int 42) [] []
      (.int 42) [1, 42, 0, 0, 0, 0, 0, 0, 0] [] rfl rfl rfl⟩

/-- C9 counterexample.  The claim says the translator falls back to code 37
whenever the helper itself raises; but when the helper raises anything
other than a MemoryError the C code calls `FATAL` and aborts the guest
without any `return_error` call (`Option.none` here — no fallback). -/
theorem claim_C9_helper_fallback_counterexample :
    handleTrinoError (fun _ => .error (.other "format failed" ""))
      (.typeError "m" "t") = Option.none :=
  rfl

/-- C9 (amended).  When the `_trino_error_result` helper raises a
MemoryError while translating a user exception, the translator falls back
to reporting `EXCEEDED_FUNCTION_MEMORY_LIMIT` (37) through `return_error`
with the fixed message and an empty traceback, rather than aborting. -/
theorem claim_C9_helper_fallback :
    ∀ (helper : PyExc → Except PyExc (Int × String × String)) e,
      helper e = .error PyExc.memoryError →
      handleTrinoError helper e =
        some ⟨37, "Python MemoryError (no traceback available)", ""⟩ := by
  intro helper e h
  simp [handleTrinoError, h, isMemoryError, memoryErrCall]

theorem claim_C9_helper_fallback_witness :
    handleTrinoError (fun _ => .error PyExc.memoryError) (.typeError "m" "t") =
      some ⟨37, "Python MemoryError (no traceback available)", ""⟩ :=
  claim_C9_helper_fallback _ _ rfl

/-- C10.  Presence and boolean bytes.  The decoder treats every nonzero
presence byte exactly like the byte 1 (first conjunct), and only the byte
0 yields a null (that case is `claim_C3_null_propagation`); a present
BOOLEAN decodes to `True` for every nonzero payload byte and to `False`
exactly for the byte 0 (second and third conjuncts).  The encoder, by
contrast, always writes the presence byte as exactly 1 for a present value
and exactly 0 for a null, and the boolean payload byte as exactly 1 or 0
(remaining conjuncts). -/
theorem claim_C10_nonzero_presence :
    (∀ fuel t (b : Nat) data, b < 256 → b ≠ 0 →
      doBuildArgs fuel t (b :: data) = doBuildArgs fuel t (1 :: data)) ∧
    (∀ fuel rt (b : Nat) data, b < 256 → b ≠ 0 →
      doBuildArgs (fuel + 1) (natLE 4 3 ++ rt) (1 :: b :: data) =
        some (.bool true, rt, data)) ∧
    (∀ fuel rt data,
      doBuildArgs (fuel + 1) (natLE 4 3 ++ rt) (1 :: 0 :: data) =
        some (.bool false, rt, data)) ∧
    (∀ fuel t v bytes t', pyIsNone v = false →
      buildResult (fuel + 1) t v = .ok bytes t' → ∃ tail, bytes = 1 :: tail) ∧
    (∀ fuel t bytes t',
      buildResult (fuel + 1) t PyValue.none = .ok bytes t' → bytes = [0]) ∧
    (∀ fuel rt v, pyIsNone v = false →
      buildResult (fuel + 1) (natLE 4 3 ++ rt) v =
        .ok [1, if pyTruth v then 1 else 0] rt) := by
  refine ⟨?_, ?_, ?_, ?_, ?_, ?_⟩
  · intro fuel t b data hb256 hb0
    cases fuel with
    | zero => rfl
    | succ f =>
      have h1 : ¬(toSigned (2 ^ 7) b = 0) := by
        simp only [toSigned]
        split <;> omega
      have h2 : ¬(toSigned (2 ^ 7) 1 = 0) := by decide
      simp only [doBuildArgs]
      rw [if_neg h1, if_neg h2]
  · intro fuel rt b data hb256 hb0
    have h1 : ¬(toSigned (2 ^ 7) b = 0) := by
      simp only [toSigned]
      split <;> omega
    simp only [doBuildArgs, readIntLE_natLE_small 3 (by norm_num) rt]
    norm_num [toSigned]
    split <;> omega
  · intro fuel rt data
    simp only [doBuildArgs, readIntLE_natLE_small 3 (by norm_num) rt]
    norm_num [toSigned]
  · intro fuel t v bytes t' hv h
    simp only [buildResult, hv, Bool.false_eq_true, if_false] at h
    exact prependOne_ok _ _ _ h
  · intro fuel t bytes t' h
    simp only [buildResult, pyIsNone, if_true] at h
    rcases hsk : skipType fuel t with _ | t2
    · rw [hsk] at h
      cases h
    · rw [hsk] at h
      injection h with h1 h2
      exact h1.symm
  · intro fuel rt v hv
    simp only [buildResult, hv, Bool.false_eq_true, if_false,
      readIntLE_natLE_small 3 (by norm_num) rt]
    norm_num [prependOne]

theorem claim_C10_nonzero_presence_witness :
    doBuildArgs 9 (natLE 4 3) [255, 1] = doBuildArgs 9 (natLE 4 3) [1, 1] ∧
    doBuildArgs 9 (natLE 4 3) [1, 255] = some (.bool true, [], []) ∧
    doBuildArgs 9 (natLE 4 3) [1, 0] = some (.bool false, [], []) ∧
    (∃ tail, [1, 42, 0, 0, 0, 0, 0, 0, 0] = 1 :: tail) ∧
    ([0] : List Nat) = [0] ∧
    buildResult 9 (natLE 4 3) (.int 7) = .ok [1, 1] [] :=
  ⟨claim_C10_nonzero_presence.1 9 (natLE 4 3) 255 [1] (by decide) (by decide),
   claim_C10_nonzero_presence.2.1 8 [] 255 [] (by decide) (by decide),
   claim_C10_nonzero_presence.2.2.1 8 [] [],
   claim_C10_nonzero_presence.2.2.2.1 8 (natLE 4 4) (.int 42)
     [1, 42, 0, 0, 0, 0, 0, 0, 0] [] rfl rfl,
   claim_C10_nonzero_presence.2.2.2.2.1 8 (natLE 4 4) [0] [] rfl,
   by
     have h := claim_C10_nonzero_presence.2.2.2.2.2 8 [] (.int 7) rfl
     simpa using h⟩

end Pyhost
